import Mathlib

/-!
Shallow embedding of the RK4 integrator in `src/integracao/integracao.py`
(class `RK4`: `__init__`, `guardar_massas`, `forcas`, `runge_kutta4`,
`aplicarNVezes`).

Conventions of the embedding:
* numpy floating-point arrays are modelled over `ℝ` (exact real arithmetic;
  rounding is abstracted away);
* an `N×D` array is a function `Fin N → Fin D → ℝ`, an `N×N×D` tensor a
  function `Fin N → Fin N → Fin D → ℝ`;
* Python exceptions raised by the code are modelled with `Except PyErr`:
  `1/mi` on the float `0.0` raises `ZeroDivisionError`, and returning the
  loop variable `F` of `aplicarNVezes` when the loop body never ran raises
  `UnboundLocalError`;
* `self.vetorUm` (all-ones matrix) and `self.identidade` (identity matrix)
  are constants folded into `forcas`: the `einsum('ij,ijk->ijk', vetorUm, X)`
  broadcast gives `Xfull[i][j] = R[i]`, and `self.identidade` appears as the
  `if i = j then 1 else 0` term of `norma`;
* Python's builtin `sum` over a numpy `N×N×D` array iterates over the first
  axis, so `sum(F)[j][k] = Σ_i F[i][j][k]`.
-/

noncomputable section

namespace RK4

/-- Python runtime errors the source code can raise. -/
inductive PyErr where
  | zeroDivision
  | unboundLocal
  deriving DecidableEq

/-- An `N×D` numpy array: positions, momenta, net forces. -/
abbrev Vec (N D : ℕ) := Fin N → Fin D → ℝ

/-- An `N×N×D` numpy array: the pairwise force tensor. -/
abbrev Tensor (N D : ℕ) := Fin N → Fin N → Fin D → ℝ

variable {N D : ℕ}

/-- Matrix `MA[i][j] = 0 if j == i else massas[j]` (built in `guardar_massas`). -/
def MA (massas : Fin N → ℝ) (i j : Fin N) : ℝ :=
  if j = i then 0 else massas j

/-- Matrix `self.prodM = MA * transpose(MA)` (elementwise product). -/
def prodM (massas : Fin N → ℝ) (i j : Fin N) : ℝ :=
  MA massas i j * MA massas j i

/-- Array `self.massasDuplicadasInvertidas`: row `i` holds `D` copies of
`1/massas[i]`. -/
def massasDuplicadasInvertidas (D : ℕ) (massas : Fin N → ℝ) : Vec N D :=
  fun i _ => 1 / massas i

/-- The state an `RK4` object caches after construction: step size, the
gravitational constant and the mass-derived arrays of `guardar_massas`. -/
structure Data (N D : ℕ) where
  h : ℝ
  G : ℝ
  massas : Fin N → ℝ
  massasDuplicadasInvertidas : Vec N D
  prodM : Fin N → Fin N → ℝ

open Classical in
/-- Method `RK4.guardar_massas`: stores the mass vector, the inverse-mass broadcast
and the mass-product matrix.  The comprehension `[1/mi for i in range(dim)]`
raises `ZeroDivisionError` exactly when some `mi` equals `0.0`; no other
validation is performed (negative masses and the empty list are accepted). -/
def guardar_massas (massas : List ℝ) (D : ℕ) (h G : ℝ) :
    Except PyErr (Data massas.length D) :=
  if (0 : ℝ) ∈ massas then .error .zeroDivision
  else .ok
    { h := h, G := G
      massas := fun i => massas.get i
      massasDuplicadasInvertidas :=
        RK4.massasDuplicadasInvertidas D (fun i => massas.get i)
      prodM := RK4.prodM (fun i => massas.get i) }

/-- Constructor `RK4.__init__`: records `dimensao`, `qntd`, `h`, `G` and calls
`guardar_massas`; it performs no mass validation of its own (the
`vetorUm`/`identidade` constants it also builds are folded into `forcas`). -/
def init (massas : List ℝ) (h : ℝ) (G : ℝ) (dimensao : ℕ) :
    Except PyErr (Data massas.length dimensao) :=
  guardar_massas massas dimensao h G

/-- Tensor `difX[i][j] = R_i - R_j`, the pairwise displacement tensor
(`X - X.transpose(1,0,2)` in the source). -/
def difX (R : Vec N D) (i j : Fin N) (k : Fin D) : ℝ :=
  R i k - R j k

/-- Denominator matrix of `forcas`, from the source line
`norma = einsum('ijk,ijk->ij', difX, difX)**(3/2) + self.identidade`:
the squared pairwise Euclidean norm raised to the power `3/2`, plus the
`N×N` identity matrix. -/
def norma (R : Vec N D) (i j : Fin N) : ℝ :=
  (∑ k, difX R i j k * difX R i j k) ^ ((3 : ℝ) / 2) +
    (if i = j then 1 else 0)

/-- The pairwise force tensor built by `forcas`:
`F = self.G * einsum('ij,ijk->ijk', true_divide(self.prodM, norma), difX)`. -/
def F (G : ℝ) (massas : Fin N → ℝ) (R : Vec N D) (i j : Fin N) (k : Fin D) : ℝ :=
  G * (prodM massas i j / norma R i j * difX R i j k)

/-- Force sums `FSomas = sum(F)`: Python's builtin `sum` iterates over the FIRST axis
of the numpy array, so `FSomas[j][k] = Σ_i F[i][j][k]`. -/
def FSomas (G : ℝ) (massas : Fin N → ℝ) (R : Vec N D) (j : Fin N) (k : Fin D) : ℝ :=
  ∑ i, F G massas R i j k

/-- Method `RK4.forcas`: returns the pairwise force tensor and the per-particle
force sums. -/
def forcas (G : ℝ) (massas : Fin N → ℝ) (R : Vec N D) :
    Tensor N D × Vec N D :=
  (F G massas R, FSomas G massas R)

/-- Method `RK4.runge_kutta4`: the position update is a fixed polynomial in `h`
built from successive inverse-mass rescalings of the momenta; the momentum
update is a single explicit-Euler step with the supplied force sums. -/
def runge_kutta4 (h : ℝ) (massas : Fin N → ℝ) (R P FS : Vec N D) :
    Vec N D × Vec N D :=
  let invM := massasDuplicadasInvertidas D massas
  let k1_vet : Vec N D := fun i k => P i k * invM i k
  let k1_1m : Vec N D := fun i k => k1_vet i k * invM i k
  let k1_2m : Vec N D := fun i k => k1_1m i k * invM i k
  let k1_3m : Vec N D := fun i k => k1_2m i k * invM i k
  let fator : Vec N D := fun i k =>
    (h / 6) * (6 * k1_vet i k + 3 * h * k1_1m i k + h ^ 2 * k1_2m i k +
      0.25 * h ^ 3 * k1_3m i k)
  (fun i k => R i k + fator i k, fun i k => P i k + h * FS i k)

/-- The `for _ in range(n)` loop of `aplicarNVezes`, carrying `(R, P)` and
the loop-local variable `F`, which is unbound (`none`) until the body has
run at least once. -/
def aplicarNVezes_loop (G h : ℝ) (massas : Fin N → ℝ) :
    ℕ → Vec N D × Vec N D × Option (Tensor N D) →
      Vec N D × Vec N D × Option (Tensor N D)
  | 0, s => s
  | n + 1, (R, P, _) =>
    let FF := forcas G massas R
    let RP := runge_kutta4 h massas R P FF.2
    aplicarNVezes_loop G h massas n (RP.1, RP.2, some FF.1)

/-- Method `RK4.aplicarNVezes(R, P, n, E)`: runs the loop `n` times and returns
`R, P, F`.  When `n = 0` the loop never ran, the local variable `F` was
never assigned, and evaluating `return R, P, F` raises `UnboundLocalError`.
The parameter `E` is accepted but never used. -/
def aplicarNVezes (G h : ℝ) (massas : Fin N → ℝ) (R P : Vec N D)
    (n : ℕ) (E : ℝ) : Except PyErr (Vec N D × Vec N D × Tensor N D) :=
  let t := aplicarNVezes_loop G h massas n (R, P, none)
  match t.2.2 with
  | some FF => .ok (t.1, t.2.1, FF)
  | none => .error .unboundLocal

/-! ### The concrete two-body configuration used by the spec's scenario -/

/-- Two-body masses `[1.0, 1.0]`. -/
def m0 : Fin 2 → ℝ := fun _ => 1

/-- Two-body initial positions `[[-1.0], [1.0]]`. -/
def R0 : Vec 2 1 := fun i _ => if i = 0 then -1 else 1

/-- Two-body initial momenta `[[0.0], [0.0]]`. -/
def P0 : Vec 2 1 := fun _ _ => 0

/-! ### Helper lemmas -/

theorem prodM_symmetric (massas : Fin N → ℝ) (i j : Fin N) :
    prodM massas i j = prodM massas j i := by
  unfold prodM; exact mul_comm _ _

theorem prodM_diag_zero (massas : Fin N → ℝ) (i : Fin N) :
    prodM massas i i = 0 := by
  simp [prodM, MA]

theorem difX_antisymmetric (R : Vec N D) (i j : Fin N) (k : Fin D) :
    difX R i j k = - difX R j i k := by
  unfold difX; ring

theorem norma_symmetric (R : Vec N D) (i j : Fin N) :
    norma R i j = norma R j i := by
  unfold norma
  have hsum : (∑ k, difX R i j k * difX R i j k) =
      ∑ k, difX R j i k * difX R j i k := by
    refine Finset.sum_congr rfl fun k _ => ?_
    unfold difX; ring
  rw [hsum]
  simp [eq_comm]

theorem F_antisymmetric (G : ℝ) (massas : Fin N → ℝ) (R : Vec N D)
    (i j : Fin N) (k : Fin D) :
    F G massas R i j k = - F G massas R j i k := by
  unfold F
  rw [prodM_symmetric massas i j, norma_symmetric R i j,
    difX_antisymmetric R i j k]
  ring

theorem F_diag_zero (G : ℝ) (massas : Fin N → ℝ) (R : Vec N D)
    (i : Fin N) (k : Fin D) :
    F G massas R i i k = 0 := by
  simp [F, prodM_diag_zero]

/-- The force sums over all particles cancel exactly (Newton's third law in
exact arithmetic). -/
theorem sum_FSomas_eq_zero (G : ℝ) (massas : Fin N → ℝ) (R : Vec N D)
    (k : Fin D) :
    ∑ j, FSomas G massas R j k = 0 := by
  have h : (∑ j, FSomas G massas R j k) = - ∑ j, FSomas G massas R j k := by
    calc (∑ j, FSomas G massas R j k)
        = ∑ j, ∑ i, F G massas R i j k := rfl
      _ = ∑ i, ∑ j, F G massas R i j k := Finset.sum_comm
      _ = ∑ i, ∑ j, - F G massas R j i k := by
          refine Finset.sum_congr rfl fun i _ => ?_
          exact Finset.sum_congr rfl fun j _ => F_antisymmetric G massas R i j k
      _ = - ∑ i, ∑ j, F G massas R j i k := by
          simp [Finset.sum_neg_distrib]
      _ = - ∑ j, ∑ i, F G massas R i j k := by rw [Finset.sum_comm]
      _ = - ∑ j, FSomas G massas R j k := rfl
  linarith

theorem rpow_threehalves_four : (4 : ℝ) ^ ((3 : ℝ) / 2) = 8 := by
  have h1 : (4 : ℝ) = (2 : ℝ) ^ ((2 : ℕ) : ℝ) := by
    rw [Real.rpow_natCast]; norm_num
  rw [h1, ← Real.rpow_mul (by norm_num : (0 : ℝ) ≤ 2)]
  have h2 : ((2 : ℕ) : ℝ) * ((3 : ℝ) / 2) = ((3 : ℕ) : ℝ) := by norm_num
  rw [h2, Real.rpow_natCast]; norm_num

theorem norma_R0_offdiag : norma R0 0 1 = 8 ∧ norma R0 1 0 = 8 := by
  constructor <;>
  · unfold norma difX R0
    rw [Fin.sum_univ_one]
    norm_num [rpow_threehalves_four]

theorem FSomas_R0_eval :
    FSomas 1 m0 R0 0 0 = 1 / 4 ∧ FSomas 1 m0 R0 1 0 = -(1 / 4) := by
  have h01 := norma_R0_offdiag.1
  have h10 := norma_R0_offdiag.2
  constructor
  · unfold FSomas
    rw [Fin.sum_univ_two]
    unfold F
    rw [h10]
    unfold prodM MA difX m0 R0
    norm_num
  · unfold FSomas
    rw [Fin.sum_univ_two]
    unfold F
    rw [h01]
    unfold prodM MA difX m0 R0
    norm_num

/-! ### Claim theorems -/

/-- C1 counterexample: constructing with masses `[1.0, -2.0, 3.0]` does NOT
fail — `init` succeeds on this list (there is no `InvalidMass` check anywhere
in `__init__` or `guardar_massas`). -/
theorem claim_C1_counterexample :
    (init [1, -2, 3] (1 / 20) 1 3).isOk = true := by
  unfold init guardar_massas
  rw [if_neg]
  · rfl
  · intro hmem
    simp only [List.mem_cons, List.mem_singleton, List.not_mem_nil] at hmem
    rcases hmem with h | h | h | h <;> norm_num at h

/-- C1 (amended): construction performs no mass validation and defines no
`InvalidMass` error.  It fails (with the `ZeroDivisionError` raised by the
`1/mi` comprehension) exactly when some mass equals zero; every other mass
list — negative masses and the empty list included — is accepted. -/
theorem claim_C1_init_zero_division (massas : List ℝ) (h G : ℝ)
    (dimensao : ℕ) :
    (init massas h G dimensao = Except.error PyErr.zeroDivision ↔
      (0 : ℝ) ∈ massas) ∧
    ((init massas h G dimensao).isOk = true ↔ (0 : ℝ) ∉ massas) := by
  unfold init guardar_massas
  by_cases hm : (0 : ℝ) ∈ massas
  · rw [if_pos hm]
    simp [hm, Except.isOk, Except.toBool]
  · rw [if_neg hm]
    simp [hm, Except.isOk, Except.toBool]

/-- C2: the claim says `aplicarNVezes(R, P, 0, E)` is a no-op returning the
inputs unchanged without failing; in the code the loop body never runs, the
local variable `F` is never assigned, and `return R, P, F` raises
`UnboundLocalError`. -/
theorem claim_C2_n_zero_unbound_local (G h : ℝ) (massas : Fin N → ℝ)
    (R P : Vec N D) (E : ℝ) :
    aplicarNVezes G h massas R P 0 E = Except.error PyErr.unboundLocal := rfl

/-- C3 counterexample: in the two-body configuration the net force that
`forcas` returns for particle 0 is `1/4`, while the claimed second-index
reduction `Σ_j pairwiseForces[0][j]` is `-(1/4)`; they differ. -/
theorem claim_C3_counterexample :
    (forcas 1 m0 R0).2 0 0 = 1 / 4 ∧
      (∑ j, (forcas 1 m0 R0).1 0 j 0) = -(1 / 4) ∧
      (forcas 1 m0 R0).2 0 0 ≠ ∑ j, (forcas 1 m0 R0).1 0 j 0 := by
  have h0 : (forcas 1 m0 R0).2 0 0 = 1 / 4 := FSomas_R0_eval.1
  have h1 : (∑ j, (forcas 1 m0 R0).1 0 j 0) = -(1 / 4) := by
    show (∑ j, F 1 m0 R0 0 j 0) = -(1 / 4)
    rw [Fin.sum_univ_two]
    have e0 : F 1 m0 R0 0 0 0 = 0 := F_diag_zero 1 m0 R0 0 0
    have e1 : F 1 m0 R0 0 1 0 = -(1 / 4) := by
      unfold F
      rw [norma_R0_offdiag.1]
      unfold prodM MA difX m0 R0
      norm_num
    rw [e0, e1]; ring
  refine ⟨h0, h1, ?_⟩
  rw [h0, h1]; norm_num

/-- C3 (amended): the net force `forcas` returns for particle `i` is the
FIRST-axis reduction `Σ_j pairwiseForces[j][i]` (Python's builtin `sum`
iterates the first axis of the tensor), which by antisymmetry equals the
NEGATION of the claimed second-index reduction `Σ_j pairwiseForces[i][j]`;
the first-axis reduction is the total force on particle `i` from all
others, while the claimed formula gives its negation. -/
theorem claim_C3_first_axis_reduction (G : ℝ) (massas : Fin N → ℝ)
    (R : Vec N D) (i : Fin N) (k : Fin D) :
    (forcas G massas R).2 i k = (∑ j, (forcas G massas R).1 j i k) ∧
      (forcas G massas R).2 i k = -(∑ j, (forcas G massas R).1 i j k) := by
  refine ⟨rfl, ?_⟩
  show FSomas G massas R i k = -(∑ j, F G massas R i j k)
  unfold FSomas
  rw [← Finset.sum_neg_distrib]
  refine Finset.sum_congr rfl fun j _ => ?_
  rw [F_antisymmetric G massas R j i k]

/-- C9: `prodM[i][j] = massas[i] * massas[j]` off the diagonal and `0` on
it; the matrix is symmetric with an all-zero diagonal. -/
theorem claim_C9_prodM_values (massas : Fin N → ℝ) (i j : Fin N) :
    prodM massas i j = (if i = j then 0 else massas i * massas j) ∧
      prodM massas i j = prodM massas j i ∧ prodM massas i i = 0 := by
  refine ⟨?_, prodM_symmetric massas i j, prodM_diag_zero massas i⟩
  unfold prodM MA
  by_cases hij : i = j
  · simp [hij]
  · simp [hij, Ne.symm hij]
    ring

/-- C10: the `E` parameter of `aplicarNVezes` is accepted but never read:
any two values of `E` give identical results. -/
theorem claim_C10_E_has_no_effect (G h : ℝ) (massas : Fin N → ℝ)
    (R P : Vec N D) (n : ℕ) (E Ep : ℝ) :
    aplicarNVezes G h massas R P n E = aplicarNVezes G h massas R P n Ep := rfl

/-- C5: `pairwiseForces[i][j] = G * prodM[i][j] * diff[i][j] / denom[i][j]`
with `denom` the squared pairwise norm raised to `3/2` plus the identity
matrix; every diagonal denominator is exactly `1` and every diagonal force
entry is exactly `0`. -/
theorem claim_C5_force_entries (G : ℝ) (massas : Fin N → ℝ) (R : Vec N D) :
    (∀ i j k, (forcas G massas R).1 i j k =
      G * prodM massas i j * difX R i j k /
        ((∑ k2, difX R i j k2 * difX R i j k2) ^ ((3 : ℝ) / 2) +
          (if i = j then 1 else 0))) ∧
    (∀ i, norma R i i = 1) ∧
    (∀ i k, (forcas G massas R).1 i i k = 0) := by
  refine ⟨fun i j k => ?_, fun i => ?_, fun i k => F_diag_zero G massas R i k⟩
  · show F G massas R i j k = _
    unfold F norma
    ring
  · unfold norma
    have hz : (∑ k, difX R i i k * difX R i i k) = 0 := by
      refine Finset.sum_eq_zero fun k _ => ?_
      unfold difX; ring
    rw [hz, Real.zero_rpow (by norm_num : (3 : ℝ) / 2 ≠ 0)]
    simp

/-- C6: the pairwise force tensor is antisymmetric under swapping the two
particle indices, and its diagonal entries are the zero vector. -/
theorem claim_C6_antisymmetry (G : ℝ) (massas : Fin N → ℝ) (R : Vec N D) :
    (∀ i j k, (forcas G massas R).1 i j k = -(forcas G massas R).1 j i k) ∧
    (∀ i k, (forcas G massas R).1 i i k = 0) :=
  ⟨fun i j k => F_antisymmetric G massas R i j k,
   fun i k => F_diag_zero G massas R i k⟩

/-- C8: one `runge_kutta4` step returns
`newPositions = positions + (h/6)*(6*k1 + 3h*k1_1 + h^2*k1_2 + 0.25h^3*k1_3)`
with `k1 = momenta ⊙ inverseMassBroadcast` and each following term the
previous one rescaled by the inverse-mass broadcast again, and
`newMomenta = momenta + h * netForces`. -/
theorem claim_C8_step_formula (h : ℝ) (massas : Fin N → ℝ)
    (R P FS : Vec N D) (i : Fin N) (k : Fin D) :
    (runge_kutta4 h massas R P FS).1 i k =
      R i k + (h / 6) *
        (6 * (P i k * massasDuplicadasInvertidas D massas i k) +
         3 * h * (P i k * massasDuplicadasInvertidas D massas i k *
           massasDuplicadasInvertidas D massas i k) +
         h ^ 2 * (P i k * massasDuplicadasInvertidas D massas i k *
           massasDuplicadasInvertidas D massas i k *
           massasDuplicadasInvertidas D massas i k) +
         0.25 * h ^ 3 * (P i k * massasDuplicadasInvertidas D massas i k *
           massasDuplicadasInvertidas D massas i k *
           massasDuplicadasInvertidas D massas i k *
           massasDuplicadasInvertidas D massas i k)) ∧
    (runge_kutta4 h massas R P FS).2 i k = P i k + h * FS i k := by
  exact ⟨rfl, rfl⟩

/-- In the two-body scenario the momenta are zero, so the position half of
the step leaves every coordinate unchanged. -/
theorem step_R0_positions_fixed (i : Fin 2) (k : Fin 1) :
    (runge_kutta4 (0.01) m0 R0 P0 (forcas 1 m0 R0).2).1 i k = R0 i k := by
  show R0 i k + (0.01 / 6) *
      (6 * (P0 i k * massasDuplicadasInvertidas 1 m0 i k) + _ + _ + _) = R0 i k
  simp [P0]

/-- C4 counterexample: after one step from the spec's two-body
configuration (`masses = [1,1]`, `G = 1`, `D = 1`, `R = [[-1],[1]]`,
`P = [[0],[0]]`, `h = 0.01`) the positions are unchanged: the separation is
still exactly `2`, not strictly smaller than `2`. -/
theorem claim_C4_counterexample :
    ((runge_kutta4 (0.01) m0 R0 P0 (forcas 1 m0 R0).2).1 1 0 -
        (runge_kutta4 (0.01) m0 R0 P0 (forcas 1 m0 R0).2).1 0 0 = 2) ∧
    ¬ |(runge_kutta4 (0.01) m0 R0 P0 (forcas 1 m0 R0).2).1 1 0 -
        (runge_kutta4 (0.01) m0 R0 P0 (forcas 1 m0 R0).2).1 0 0| < 2 := by
  rw [step_R0_positions_fixed 1 0, step_R0_positions_fixed 0 0]
  unfold R0
  norm_num

/-- C4 (amended): after one step the new momenta are `1/400` and `-(1/400)`
— equal in magnitude, opposite in sign, each pulled toward the other body —
but the new positions coincide with the initial ones, so the separation
remains exactly `2.0` rather than becoming strictly smaller: the position
update uses only the momenta, which start at zero. -/
theorem claim_C4_two_body_step :
    (runge_kutta4 (0.01) m0 R0 P0 (forcas 1 m0 R0).2).2 0 0 = 1 / 400 ∧
    (runge_kutta4 (0.01) m0 R0 P0 (forcas 1 m0 R0).2).2 1 0 = -(1 / 400) ∧
    (runge_kutta4 (0.01) m0 R0 P0 (forcas 1 m0 R0).2).1 0 0 = R0 0 0 ∧
    (runge_kutta4 (0.01) m0 R0 P0 (forcas 1 m0 R0).2).1 1 0 = R0 1 0 ∧
    (runge_kutta4 (0.01) m0 R0 P0 (forcas 1 m0 R0).2).1 1 0 -
      (runge_kutta4 (0.01) m0 R0 P0 (forcas 1 m0 R0).2).1 0 0 = 2 := by
  have hp0 : (runge_kutta4 (0.01) m0 R0 P0 (forcas 1 m0 R0).2).2 0 0 =
      P0 0 0 + 0.01 * FSomas 1 m0 R0 0 0 := rfl
  have hp1 : (runge_kutta4 (0.01) m0 R0 P0 (forcas 1 m0 R0).2).2 1 0 =
      P0 1 0 + 0.01 * FSomas 1 m0 R0 1 0 := rfl
  refine ⟨?_, ?_, step_R0_positions_fixed 0 0, step_R0_positions_fixed 1 0, ?_⟩
  · rw [hp0, FSomas_R0_eval.1]
    unfold P0
    norm_num
  · rw [hp1, FSomas_R0_eval.2]
    unfold P0
    norm_num
  · rw [step_R0_positions_fixed 1 0, step_R0_positions_fixed 0 0]
    unfold R0
    norm_num

/-- One step with the force sums that `forcas` produced from the current
positions leaves the total momentum unchanged. -/
theorem step_momentum_sum (G h : ℝ) (massas : Fin N → ℝ) (R P : Vec N D)
    (k : Fin D) :
    ∑ i, (runge_kutta4 h massas R P (forcas G massas R).2).2 i k =
      ∑ i, P i k := by
  show (∑ i, (P i k + h * FSomas G massas R i k)) = ∑ i, P i k
  rw [Finset.sum_add_distrib, ← Finset.mul_sum, sum_FSomas_eq_zero]
  ring

/-- The loop of `aplicarNVezes` preserves the total momentum. -/
theorem loop_momentum_sum (G h : ℝ) (massas : Fin N → ℝ) :
    ∀ (n : ℕ) (R P : Vec N D) (o : Option (Tensor N D)) (k : Fin D),
      ∑ i, (aplicarNVezes_loop G h massas n (R, P, o)).2.1 i k = ∑ i, P i k
  | 0, R, P, o, k => rfl
  | n + 1, R, P, o, k => by
    show (∑ i, (aplicarNVezes_loop G h massas n
        ((runge_kutta4 h massas R P (forcas G massas R).2).1,
         (runge_kutta4 h massas R P (forcas G massas R).2).2,
         some (forcas G massas R).1)).2.1 i k) = ∑ i, P i k
    rw [loop_momentum_sum G h massas n _ _ _ k]
    exact step_momentum_sum G h massas R P k

/-- Once the loop variable `F` is bound, it stays bound. -/
theorem loop_keeps_some (G h : ℝ) (massas : Fin N → ℝ) :
    ∀ (n : ℕ) (R P : Vec N D) (FF : Tensor N D),
      ∃ Fo, (aplicarNVezes_loop G h massas n (R, P, some FF)).2.2 = some Fo
  | 0, _, _, FF => ⟨FF, rfl⟩
  | n + 1, R, P, _ =>
    loop_keeps_some G h massas n
      (runge_kutta4 h massas R P (forcas G massas R).2).1
      (runge_kutta4 h massas R P (forcas G massas R).2).2
      (forcas G massas R).1

/-- When the loop ends with `F` bound, `aplicarNVezes` returns the final
`(R, P, F)`. -/
theorem aplicarNVezes_eq_of_some (G h : ℝ) (massas : Fin N → ℝ)
    (R P : Vec N D) (n : ℕ) (E : ℝ) (Fo : Tensor N D)
    (hFo : (aplicarNVezes_loop G h massas n (R, P, none)).2.2 = some Fo) :
    aplicarNVezes G h massas R P n E =
      Except.ok ((aplicarNVezes_loop G h massas n (R, P, none)).1,
        (aplicarNVezes_loop G h massas n (R, P, none)).2.1, Fo) := by
  unfold aplicarNVezes
  simp only [hFo]

/-- C7: for every valid initial state and every positive step count `n`,
`aplicarNVezes` succeeds and the total momentum `Σ_i momenta[i]` is
unchanged, coordinate by coordinate: the per-particle force sums of
`forcas` cancel exactly each step (Newton's third law, exact in real
arithmetic; the floating-point code realizes it up to rounding). -/
theorem claim_C7_momentum_conservation (G h : ℝ) (massas : Fin N → ℝ)
    (R P : Vec N D) (E : ℝ) (n : ℕ) (hn : n ≠ 0) :
    ∃ Rf Pf FF, aplicarNVezes G h massas R P n E = Except.ok (Rf, Pf, FF) ∧
      ∀ k, ∑ i, Pf i k = ∑ i, P i k := by
  obtain ⟨m, rfl⟩ := Nat.exists_eq_succ_of_ne_zero hn
  have hsome : ∃ Fo,
      (aplicarNVezes_loop G h massas (m + 1) (R, P, none)).2.2 = some Fo := by
    show ∃ Fo, (aplicarNVezes_loop G h massas m
        ((runge_kutta4 h massas R P (forcas G massas R).2).1,
         (runge_kutta4 h massas R P (forcas G massas R).2).2,
         some (forcas G massas R).1)).2.2 = some Fo
    exact loop_keeps_some G h massas m _ _ _
  obtain ⟨Fo, hFo⟩ := hsome
  refine ⟨(aplicarNVezes_loop G h massas (m + 1) (R, P, none)).1,
    (aplicarNVezes_loop G h massas (m + 1) (R, P, none)).2.1, Fo,
    aplicarNVezes_eq_of_some G h massas R P (m + 1) E Fo hFo, fun k => ?_⟩
  exact loop_momentum_sum G h massas (m + 1) R P none k

/-- C7 witness: the theorem applied to the concrete two-body configuration
with `n = 1`. -/
theorem claim_C7_momentum_conservation_witness :
    (1 : ℕ) ≠ 0 ∧
      (∃ Rf Pf FF, aplicarNVezes 1 (1 / 100) m0 R0 P0 1 0 =
          Except.ok (Rf, Pf, FF) ∧
        ∀ k, ∑ i, Pf i k = ∑ i, P0 i k) :=
  ⟨by decide,
   claim_C7_momentum_conservation 1 (1 / 100) m0 R0 P0 0 1 (by decide)⟩

end RK4
